import Mathlib

/-!
# Verification of snap-html's resolution, session and batch logic

Shallow embedding of `src/snap_html/__init__.py`.  Python floats are
modelled as rationals (`ℚ`), Python ints as `ℤ`, Python `dict` fields of
the `TypedDict` resolution specs as `Option` fields of a structure, and
fallible operations as `Except`.  The resolution/fit computation inside
`generate_image_batch` (a pure computation in the source) is factored
into `resolveViewport`; the batch task assembly and `asyncio.gather`
collection are modelled over an abstract per-target renderer, with the
completion schedule of the concurrent tasks made explicit.
-/

namespace SnapHtml

/-- Error taxonomy of the spec (§7). -/
inductive SnapError
  | invalidArgument (msg : String)
  | sessionNotInitialized (msg : String)
  deriving DecidableEq, Repr

/-- Round half to even, the semantics of Python's built-in `round`. -/
def roundHalfEven (q : ℚ) : ℤ :=
  let f := ⌊q⌋
  if q - f < 1/2 then f
  else if 1/2 < q - f then f + 1
  else if Even f then f else f + 1

/-- The pure value computed by `UnitConverter.cm_to_pixels`:
`cm` centimeters are converted to inches (pint's exact factor 2.54)
and multiplied by `dpi`; `int(round(...))` rounds half to even. -/
def cmToPixelsPure (cm : ℚ) (dpi : ℤ) : ℤ :=
  roundHalfEven (cm / (254/100) * dpi)

/-- `UnitConverter.cm_to_pixels` (src/snap_html/__init__.py : 17-24).
The body performs no validation of `cm` or `dpi` and has no failure
path; it is embedded in `Except` so that claims about failure are
statable. -/
def cm_to_pixels (cm : ℚ) (dpi : ℤ) : Except SnapError ℤ :=
  .ok (cmToPixelsPure cm dpi)

/-- The `object_fit` strings of class `ObjectFit`. -/
def ObjectFit.CONTAIN : String := "contain"

def ObjectFit.COVER : String := "cover"

def ObjectFit.FILL : String := "fill"

def ObjectFit.NONE : String := "none"

/-- A resolution mapping: the `PrintMediaResolution` `TypedDict`
(`total=False`): every key optional.  `PixelResolution` and
`CMResolution` are the sub-cases with the corresponding keys present. -/
structure Resolution where
  width : Option ℤ := none
  height : Option ℤ := none
  cm_width : Option ℚ := none
  cm_height : Option ℚ := none
  dpi : Option ℤ := none
  object_fit : Option String := none
  deriving DecidableEq, Repr

/-- `is_cm_resolution` (lines 112-114): both cm keys present. -/
def is_cm_resolution (resolution : Resolution) : Bool :=
  resolution.cm_width.isSome && resolution.cm_height.isSome

/-- `has_pixel_dimensions` (lines 117-119): both pixel keys present. -/
def has_pixel_dimensions (resolution : Resolution) : Bool :=
  resolution.width.isSome && resolution.height.isSome

/-- Playwright's `ViewportSize`. -/
structure ViewportSize where
  width : ℤ
  height : ℤ
  deriving DecidableEq, Repr

/-- The viewport and device scale factor that `generate_image_batch`
hands to `PlaywrightManager`. -/
structure ResolvedViewport where
  width : ℤ
  height : ℤ
  device_scale : ℚ
  deriving DecidableEq, Repr

/-- The resolution/fit computation of `generate_image_batch`
(lines 172-239), which is pure: from the optional resolution mapping,
the caller's `scale_factor` and the `object_fit` parameter it produces
the viewport dimensions and device scale factor.  Mirrors the source's
branch structure; `resolution.get(k, d)` becomes `Option.getD`.  The
source's `FILL` branch assigns `actual_resolution`/`device_scale` and
then reassigns the same values in the trailing `else`; the embedding
keeps the net effect. -/
def resolveViewport (resolution : Option Resolution) (scale_factor : ℚ)
    (object_fit : String) : ResolvedViewport :=
  let r := resolution.getD { width := some 1920, height := some 1080 }
  let content_fit := r.object_fit.getD object_fit
  let has_cm := is_cm_resolution r
  let has_pixels := has_pixel_dimensions r
  if has_cm then
    let dpi := r.dpi.getD 300
    let cm_width := r.cm_width.getD 0
    let cm_height := r.cm_height.getD 0
    let pixel_width := cmToPixelsPure cm_width dpi
    let pixel_height := cmToPixelsPure cm_height dpi
    if has_pixels then
      let screen_width := r.width.getD 1920
      let screen_height := r.height.getD 1080
      let scale_ratio :=
        if content_fit = ObjectFit.CONTAIN then
          min ((screen_width : ℚ) / (pixel_width : ℚ))
              ((screen_height : ℚ) / (pixel_height : ℚ))
        else if content_fit = ObjectFit.COVER then
          max ((screen_width : ℚ) / (pixel_width : ℚ))
              ((screen_height : ℚ) / (pixel_height : ℚ))
        else 1
      if content_fit = ObjectFit.CONTAIN ∨ content_fit = ObjectFit.COVER then
        { width := screen_width, height := screen_height,
          device_scale := scale_factor * scale_ratio * ((dpi : ℚ) / 96) }
      else
        { width := screen_width, height := screen_height,
          device_scale := scale_factor * ((dpi : ℚ) / 96) }
    else
      { width := pixel_width, height := pixel_height,
        device_scale := scale_factor }
  else if has_pixels then
    { width := r.width.getD 1920, height := r.height.getD 1080,
      device_scale := scale_factor }
  else
    { width := 1920, height := 1080, device_scale := scale_factor }

/-- `PlaywrightManager` (lines 122-150).  The playwright handle, browser
and context are opaque resources, modelled as numeric identifiers held
in the three `Option` slots that `__init__` sets to `None`. -/
structure PlaywrightManager where
  viewport : ViewportSize
  device_scale_factor : ℚ
  playwright : Option ℕ
  browser : Option ℕ
  context : Option ℕ
  deriving DecidableEq, Repr

namespace PlaywrightManager

/-- `PlaywrightManager.__init__`: stores viewport and scale, leaves the
playwright, browser and context slots unset. -/
def init (viewport : ViewportSize) (device_scale_factor : ℚ) :
    PlaywrightManager :=
  { viewport := viewport, device_scale_factor := device_scale_factor,
    playwright := none, browser := none, context := none }

/-- `PlaywrightManager.__aenter__`: starts playwright, launches the
browser, opens the context; the identifiers of the three acquired
resources are parameters (they come from the external engine). -/
def aenter (m : PlaywrightManager) (pw br ctx : ℕ) : PlaywrightManager :=
  { m with playwright := some pw, browser := some br, context := some ctx }

/-- The three release actions `__aexit__` can attempt, in source
order. -/
inductive TeardownStep
  | closeContext
  | closeBrowser
  | stopPlaywright
  deriving DecidableEq, Repr

/-- `PlaywrightManager.__aexit__` (lines 139-145): three guarded awaits
in sequence, `context.close()`, `browser.close()`, `playwright.stop()`,
with no `try`/`finally`.  Whether each external close call succeeds is a
Boolean parameter; a failing call raises, so the remaining awaits are
not reached.  Returns the list of attempted steps and whether an
exception propagated out of `__aexit__`. -/
def aexit (m : PlaywrightManager) (ctxOk brOk pwOk : Bool) :
    List TeardownStep × Bool :=
  let s1 : List TeardownStep :=
    if m.context.isSome then [.closeContext] else []
  if m.context.isSome && !ctxOk then (s1, true)
  else
    let s2 := s1 ++ (if m.browser.isSome then [.closeBrowser] else [])
    if m.browser.isSome && !brOk then (s2, true)
    else
      let s3 := s2 ++ (if m.playwright.isSome then [.stopPlaywright] else [])
      if m.playwright.isSome && !pwOk then (s3, true) else (s3, false)

/-- `PlaywrightManager.get_context` (lines 147-150): raises when
`self.context is None`, the spec's `SessionNotInitialized` failure,
otherwise returns the context. -/
def get_context (m : PlaywrightManager) : Except SnapError ℕ :=
  match m.context with
  | none => .error (.sessionNotInitialized
      "Context not initialized. Use within 'async with' block.")
  | some c => .ok c

end PlaywrightManager

/-- Python's `xs or default` on an optional list argument: `None` and
the empty list are falsy and replaced by `default`; any non-empty list
is kept as is.  This is how `generate_image_batch` treats
`query_parameters_list` and `output_files` (lines 252-254). -/
def pyOrList {α : Type} (l : Option (List (Option α)))
    (default : List (Option α)) : List (Option α) :=
  match l with
  | none => default
  | some xs => if xs.isEmpty then default else xs

/-- One completion step of the cooperative scheduler: task `i`
finishes and stores its result at its own index in the result buffer.
Indices outside the task list are ignored. -/
def schedStep {α β : Type} (tasks : List α) (run : α → β)
    (acc : List (Option β)) (i : ℕ) : List (Option β) :=
  match tasks[i]? with
  | some t => acc.set i (some (run t))
  | none => acc

/-- A full run of the scheduler over a completion order: `order` lists
the task indices in the order in which their results become
available. -/
def runSchedule {α β : Type} (tasks : List α) (run : α → β)
    (order : List ℕ) : List (Option β) :=
  order.foldl (schedStep tasks run) (List.replicate tasks.length none)

/-- `asyncio.gather(*tasks)`: the tasks complete in schedule order and
the results are read back positionally, in task order. -/
def gather {α β : Type} (tasks : List α) (run : α → β)
    (order : List ℕ) : List β :=
  (runSchedule tasks run order).reduceOption

/-- The batch pipeline of `generate_image_batch` (lines 250-300) over
an abstract per-target renderer: the auxiliary lists are defaulted with
Python `or` semantics, `zip` pairs each target with its query
parameters and output file (truncating at the shortest list), one
`_generate` task is built per tuple — `_generate` returns the singleton
list `[screenshot]` — the tasks are gathered under completion schedule
`order`, and the per-task lists are flattened into the final screenshot
list. -/
def generate_image_batch_model {Target QP OutFile Bytes : Type}
    (renderOne : Target → Option QP → Option OutFile → Bytes)
    (targets : List Target)
    (query_parameters_list : Option (List (Option QP)))
    (output_files : Option (List (Option OutFile)))
    (order : List ℕ) : List Bytes :=
  let qs := pyOrList query_parameters_list (List.replicate targets.length none)
  let os := pyOrList output_files (List.replicate targets.length none)
  let tasks := targets.zip (qs.zip os)
  let results := gather tasks (fun t => [renderOne t.1 t.2.1 t.2.2]) order
  results.flatten

end SnapHtml


section SchedulerLemmas

open SnapHtml

/-- A completion step never changes the length of the result buffer. -/
theorem schedStep_length {α β : Type} (tasks : List α) (run : α → β)
    (acc : List (Option β)) (i : ℕ) :
    (schedStep tasks run acc i).length = acc.length := by
  unfold schedStep
  cases tasks[i]? <;> simp

/-- Folding completion steps never changes the length of the result
buffer. -/
theorem foldl_schedStep_length {α β : Type} (tasks : List α) (run : α → β)
    (order : List ℕ) (acc : List (Option β)) :
    (order.foldl (schedStep tasks run) acc).length = acc.length := by
  induction order generalizing acc with
  | nil => rfl
  | cons i rest ih =>
    rw [List.foldl_cons, ih, schedStep_length]

/-- After folding a completion order over the buffer, position `j`
holds task `j`'s result when `j` completed somewhere in the order, and
is untouched otherwise. -/
theorem foldl_schedStep_getElem {α β : Type} (tasks : List α) (run : α → β)
    (order : List ℕ) (acc : List (Option β))
    (hlen : acc.length = tasks.length) (j : ℕ) (hj : j < tasks.length) :
    (order.foldl (schedStep tasks run) acc)[j]? =
      if j ∈ order then some (some (run (tasks.get ⟨j, hj⟩))) else acc[j]? := by
  induction order generalizing acc with
  | nil => simp
  | cons i rest ih =>
    rw [List.foldl_cons]
    have hlen' : (schedStep tasks run acc i).length = tasks.length := by
      rw [schedStep_length, hlen]
    rw [ih _ hlen']
    by_cases hjr : j ∈ rest
    · simp [hjr]
    · rw [if_neg hjr]
      by_cases hij : j = i
      · subst hij
        have hget : tasks[j]? = some (tasks.get ⟨j, hj⟩) :=
          List.getElem?_eq_getElem hj
        rw [if_pos (List.mem_cons_self j rest)]
        unfold schedStep
        rw [hget]
        exact List.getElem?_set_eq_of_lt _ (by rw [hlen]; exact hj)
      · have : ¬ j ∈ i :: rest := by
          simp [List.mem_cons, hij, hjr]
        rw [if_neg this]
        unfold schedStep
        cases htasks : tasks[i]? with
        | none => rfl
        | some t => exact List.getElem?_set_ne (fun h => hij h.symm)

/-- When every task index appears in the completion order, the run of
the scheduler fills the whole buffer with the tasks' results, in task
order. -/
theorem runSchedule_eq_map {α β : Type} (tasks : List α) (run : α → β)
    (order : List ℕ) (hcover : ∀ j, j < tasks.length → j ∈ order) :
    runSchedule tasks run order = tasks.map (fun t => some (run t)) := by
  apply List.ext_getElem?
  intro j
  by_cases hj : j < tasks.length
  · unfold runSchedule
    rw [foldl_schedStep_getElem tasks run order _ (by simp) j hj,
      if_pos (hcover j hj), List.getElem?_map,
      List.getElem?_eq_getElem hj]
    rfl
  · have h1 : (runSchedule tasks run order)[j]? = none := by
      apply List.getElem?_eq_none
      unfold runSchedule
      rw [foldl_schedStep_length]
      simp only [List.length_replicate]
      omega
    have h2 : (tasks.map (fun t => some (run t)))[j]? = none := by
      apply List.getElem?_eq_none
      rw [List.length_map]
      omega
    rw [h1, h2]

/-- `reduceOption` undoes a `some`-valued map. -/
theorem reduceOption_map_some {α β : Type} (l : List α) (f : α → β) :
    (l.map fun a => some (f a)).reduceOption = l.map f := by
  induction l with
  | nil => rfl
  | cons a l ih => simp [List.reduceOption_cons_of_some, ih]

/-- Flattening a map to singleton lists is the plain map. -/
theorem flatten_map_singleton {α β : Type} (l : List α) (f : α → β) :
    (l.map fun a => [f a]).flatten = l.map f := by
  induction l with
  | nil => rfl
  | cons a l ih => simp [ih]

/-- With full coverage of the task indices, `gather` returns exactly
the tasks' results in task order, whatever the completion order. -/
theorem gather_eq_map {α β : Type} (tasks : List α) (run : α → β)
    (order : List ℕ) (hcover : ∀ j, j < tasks.length → j ∈ order) :
    gather tasks run order = tasks.map run := by
  unfold gather
  rw [runSchedule_eq_map tasks run order hcover, reduceOption_map_some]

end SchedulerLemmas

section Claims

open SnapHtml

/-- C2 (corrected).  The batch pipeline zips the target list with the
defaulted auxiliary lists, so the number of rendered targets is the
minimum of the three lengths: `N` when the auxiliary lists are absent,
empty, or at least as long as the targets (absent and empty lists are
replaced by `N` `none`s), but silently truncated when a non-empty
auxiliary list is shorter than the targets.  Whatever the completion
order of the concurrent render tasks — any schedule covering every
task index — the results are returned positionally, matching the input
target order. -/
theorem C2_batch_order_and_zip {Target QP OutFile Bytes : Type}
    (renderOne : Target → Option QP → Option OutFile → Bytes)
    (targets : List Target)
    (qpl : Option (List (Option QP))) (ofl : Option (List (Option OutFile)))
    (order : List ℕ)
    (hcover : ∀ j, j <
      min targets.length
        (min (pyOrList qpl (List.replicate targets.length none)).length
             (pyOrList ofl (List.replicate targets.length none)).length) →
      j ∈ order) :
    (generate_image_batch_model renderOne targets qpl ofl order).length =
      min targets.length
        (min (pyOrList qpl (List.replicate targets.length none)).length
             (pyOrList ofl (List.replicate targets.length none)).length) ∧
    ∀ i, i <
      min targets.length
        (min (pyOrList qpl (List.replicate targets.length none)).length
             (pyOrList ofl (List.replicate targets.length none)).length) →
      ∃ t q o, targets[i]? = some t ∧
        (pyOrList qpl (List.replicate targets.length none))[i]? = some q ∧
        (pyOrList ofl (List.replicate targets.length none))[i]? = some o ∧
        (generate_image_batch_model renderOne targets qpl ofl order)[i]? =
          some (renderOne t q o) := by
  set qs := pyOrList qpl (List.replicate targets.length none) with hqs
  set os := pyOrList ofl (List.replicate targets.length none) with hos
  have hmodel : generate_image_batch_model renderOne targets qpl ofl order =
      (targets.zip (qs.zip os)).map (fun t => renderOne t.1 t.2.1 t.2.2) := by
    simp only [generate_image_batch_model]
    rw [← hqs, ← hos,
      gather_eq_map _ _ order
        (fun j hj => hcover j (by rwa [List.length_zip, List.length_zip] at hj)),
      flatten_map_singleton]
  constructor
  · rw [hmodel, List.length_map, List.length_zip, List.length_zip]
  · intro i hi
    have hilen : i < (targets.zip (qs.zip os)).length := by
      rw [List.length_zip, List.length_zip]; exact hi
    obtain ⟨z, hz⟩ : ∃ z, (targets.zip (qs.zip os))[i]? = some z :=
      ⟨_, List.getElem?_eq_getElem hilen⟩
    obtain ⟨h1, h2⟩ := List.getElem?_zip_eq_some.1 hz
    obtain ⟨h21, h22⟩ := List.getElem?_zip_eq_some.1 h2
    refine ⟨z.1, z.2.1, z.2.2, h1, h21, h22, ?_⟩
    rw [hmodel, List.getElem?_map, hz]
    rfl

/-- C2 counterexample to the claim as stated: two targets with a
non-empty `query_parameters_list` of length one.  The claim says the
short list defaults to `None` per position so that both targets are
rendered; the code's `zip` truncates instead and only one screenshot
is returned. -/
theorem C2_counterexample :
    (generate_image_batch_model
      (fun (t : String) (_ : Option ℕ) (_ : Option ℕ) => t)
      ["a", "b"] (some [none]) none [0]).length ≠ 2 := by
  decide

/-- C2 witness: two targets, auxiliary lists absent, completion order
reversed; the theorem applies and both screenshots come back in input
order. -/
theorem C2_witness :
    (generate_image_batch_model
      (fun (t : String) (_ : Option ℕ) (_ : Option ℕ) => t)
      ["a", "b"] none none [1, 0]).length = 2 :=
  ((C2_batch_order_and_zip
    (fun (t : String) (_ : Option ℕ) (_ : Option ℕ) => t)
    ["a", "b"] none none [1, 0] (by decide)).1).trans (by decide)

/-- C4 (corrected).  For a fully acquired session, the exit handler
attempts the release steps in source order — context close, then
browser close, then playwright stop — and when the context close
succeeds the browser close is attempted next; but the attempts are not
unconditional: if closing the context fails, the exception propagates
at once and neither the browser close nor the playwright stop is
attempted, and if the browser close fails the playwright stop is
skipped. -/
theorem C4_teardown_order (m : PlaywrightManager) (pw br ctx : ℕ)
    (brOk pwOk : Bool) :
    ((m.aenter pw br ctx).aexit true true true =
      ([PlaywrightManager.TeardownStep.closeContext,
        PlaywrightManager.TeardownStep.closeBrowser,
        PlaywrightManager.TeardownStep.stopPlaywright], false)) ∧
    ((m.aenter pw br ctx).aexit false brOk pwOk =
      ([PlaywrightManager.TeardownStep.closeContext], true)) ∧
    ((m.aenter pw br ctx).aexit true false pwOk =
      ([PlaywrightManager.TeardownStep.closeContext,
        PlaywrightManager.TeardownStep.closeBrowser], true)) := by
  exact ⟨rfl, rfl, rfl⟩

/-- C4 counterexample to the claim as stated: a session acquired with
concrete resources whose context close fails.  The trace of attempted
steps is `[closeContext]` only — the browser close is suppressed,
contradicting "both release steps are attempted unconditionally". -/
theorem C4_counterexample :
    PlaywrightManager.aexit
      (PlaywrightManager.aenter (PlaywrightManager.init ⟨1920, 1080⟩ (3/2)) 0 1 2)
      false true true =
    ([PlaywrightManager.TeardownStep.closeContext], true) := by
  decide

/-- C8: `get_context` fails with the `SessionNotInitialized` error when
the session has not been entered (the context slot is unset), and
returns the session's browser context inside the scoped lifetime. -/
theorem C8_get_context (v : ViewportSize) (d : ℚ) (pw br ctx : ℕ) :
    (PlaywrightManager.init v d).get_context =
      .error (.sessionNotInitialized
        "Context not initialized. Use within 'async with' block.") ∧
    ((PlaywrightManager.init v d).aenter pw br ctx).get_context = .ok ctx := by
  exact ⟨rfl, rfl⟩

/-- C3 (corrected).  `cm_to_pixels` performs no validation and never
fails: for every `cm` and `dpi` — non-positive `dpi` included — it
returns normally (it is pure, so it has no side effects), and for
positive `cm` and `dpi` the returned pixel count is non-negative. -/
theorem C3_cm_to_pixels_total (cm : ℚ) (dpi : ℤ) :
    (∃ n, cm_to_pixels cm dpi = .ok n) ∧
    (0 < cm → 0 < dpi → ∃ n, 0 ≤ n ∧ cm_to_pixels cm dpi = .ok n) := by
  constructor
  · exact ⟨cmToPixelsPure cm dpi, rfl⟩
  · intro hcm hdpi
    refine ⟨cmToPixelsPure cm dpi, ?_, rfl⟩
    have hq : 0 ≤ cm / (254/100) * (dpi : ℚ) := by positivity
    have hf : 0 ≤ ⌊cm / (254/100) * (dpi : ℚ)⌋ := Int.floor_nonneg.2 hq
    simp only [cmToPixelsPure, roundHalfEven]
    split_ifs <;> omega

/-- C3 counterexample to the claim as stated: at `dpi = -96` (a
non-positive dpi) the conversion does not signal `InvalidArgument`; it
returns `-96` normally. -/
theorem C3_counterexample : cm_to_pixels (254/100) (-96) = .ok (-96) := by
  norm_num [cm_to_pixels, cmToPixelsPure, roundHalfEven]

/-- C3 witness: at `cm = 1 > 0` and `dpi = 300 > 0` the conversion
returns normally with a non-negative value. -/
theorem C3_witness :
    ∃ n, 0 ≤ n ∧ cm_to_pixels 1 300 = .ok n :=
  (C3_cm_to_pixels_total 1 300).2 zero_lt_one (by decide)

/-- Half-to-even rounding lands within half a unit of its argument. -/
theorem abs_sub_roundHalfEven_le (q : ℚ) :
    |q - (roundHalfEven q : ℚ)| ≤ 1/2 := by
  have h0 : (⌊q⌋ : ℚ) ≤ q := Int.floor_le q
  have h1 : q < ⌊q⌋ + 1 := Int.lt_floor_add_one q
  simp only [roundHalfEven]
  split_ifs with ha hb hc
  · rw [abs_of_nonneg (by linarith)]
    linarith
  · push_cast
    rw [abs_of_nonpos (by linarith)]
    linarith
  · rw [abs_of_nonneg (by linarith)]
    linarith
  · push_cast
    rw [abs_of_nonpos (by linarith)]
    linarith

/-- C7: `cm_to_pixels` converts centimeters to inches by dividing by
2.54, multiplies by dpi, and rounds to the nearest integer (every
returned value is within half a pixel of `cm / 2.54 * dpi`); in
particular 2.54cm at 96 dpi is exactly 96 pixels, 2.54cm at 300 dpi is
exactly 300, and 5.08cm at 96 dpi is exactly 192. -/
theorem C7_cm_to_pixels_rounding :
    cm_to_pixels (254/100) 96 = .ok 96 ∧
    cm_to_pixels (254/100) 300 = .ok 300 ∧
    cm_to_pixels (508/100) 96 = .ok 192 ∧
    ∀ (cm : ℚ) (dpi r : ℤ), cm_to_pixels cm dpi = .ok r →
      |cm / (254/100) * (dpi : ℚ) - (r : ℚ)| ≤ 1/2 := by
  refine ⟨?_, ?_, ?_, ?_⟩
  · norm_num [cm_to_pixels, cmToPixelsPure, roundHalfEven]
  · norm_num [cm_to_pixels, cmToPixelsPure, roundHalfEven]
  · norm_num [cm_to_pixels, cmToPixelsPure, roundHalfEven]
  · intro cm dpi r hr
    have : r = cmToPixelsPure cm dpi := by
      simpa [cm_to_pixels] using hr.symm
    subst this
    exact abs_sub_roundHalfEven_le (cm / (254/100) * (dpi : ℚ))

/-- C7 witness: the rounding bound applied at 2.54cm and 96 dpi. -/
theorem C7_witness :
    |(254/100 : ℚ) / (254/100) * ((96 : ℤ) : ℚ) -
      ((cmToPixelsPure (254/100) 96 : ℤ) : ℚ)| ≤ 1/2 :=
  C7_cm_to_pixels_rounding.2.2.2 (254/100) 96 (cmToPixelsPure (254/100) 96) rfl

/-- C5: a resolution with both pixel fields and without a complete cm
pair resolves to exactly those pixel fields, with the caller-supplied
scale factor as device scale factor. -/
theorem C5_pixel_only (r : Resolution) (sf : ℚ) (fit : String) (w h : ℤ)
    (hw : r.width = some w) (hh : r.height = some h)
    (hcm : is_cm_resolution r = false) :
    resolveViewport (some r) sf fit =
      { width := w, height := h, device_scale := sf } := by
  simp [resolveViewport, hcm, has_pixel_dimensions, hw, hh]

/-- C5 witness: an 800x600 pixel-only resolution. -/
theorem C5_witness :
    resolveViewport (some { width := some 800, height := some 600 })
      (3/2) "contain" =
      { width := 800, height := 600, device_scale := 3/2 } :=
  C5_pixel_only _ (3/2) "contain" 800 600 rfl rfl rfl

/-- C6: a resolution with a complete cm pair and without both pixel
fields resolves to `cm_to_pixels` of each physical dimension at the
spec's dpi (300 when absent), with the caller-supplied scale factor as
device scale factor. -/
theorem C6_cm_only (r : Resolution) (sf : ℚ) (fit : String) (cw ch : ℚ)
    (hcw : r.cm_width = some cw) (hch : r.cm_height = some ch)
    (hpx : has_pixel_dimensions r = false) :
    resolveViewport (some r) sf fit =
      { width := cmToPixelsPure cw (r.dpi.getD 300),
        height := cmToPixelsPure ch (r.dpi.getD 300),
        device_scale := sf } := by
  simp [resolveViewport, is_cm_resolution, hcw, hch, hpx]

/-- C6 witness: an A4 cm-only resolution at 300 dpi. -/
theorem C6_witness :
    resolveViewport
      (some { cm_width := some 21, cm_height := some (297/10),
              dpi := some 300 }) (3/2) "contain" =
      { width := cmToPixelsPure 21 300,
        height := cmToPixelsPure (297/10) 300,
        device_scale := 3/2 } :=
  C6_cm_only _ (3/2) "contain" 21 (297/10) rfl rfl rfl

/-- C9: a dimension family counts as present only with both of its
fields.  A resolution supplying at most one field of each pair has
both families absent, and resolves — without any error — to the
1920x1080 default viewport with the caller-supplied scale factor. -/
theorem C9_partial_pairs (r : Resolution) (sf : ℚ) (fit : String)
    (hcm : r.cm_width = none ∨ r.cm_height = none)
    (hpx : r.width = none ∨ r.height = none) :
    is_cm_resolution r = false ∧ has_pixel_dimensions r = false ∧
    resolveViewport (some r) sf fit =
      { width := 1920, height := 1080, device_scale := sf } := by
  have h1 : is_cm_resolution r = false := by
    rcases hcm with h | h <;> simp [is_cm_resolution, h]
  have h2 : has_pixel_dimensions r = false := by
    rcases hpx with h | h <;> simp [has_pixel_dimensions, h]
  refine ⟨h1, h2, ?_⟩
  simp [resolveViewport, h1, h2]

/-- C9 witness: a resolution with `width` but no `height` and
`cm_width` but no `cm_height`. -/
theorem C9_witness :
    is_cm_resolution { width := some 800, cm_width := some 10 } = false ∧
    has_pixel_dimensions { width := some 800, cm_width := some 10 } = false ∧
    resolveViewport (some { width := some 800, cm_width := some 10 })
      (3/2) "contain" =
      { width := 1920, height := 1080, device_scale := 3/2 } :=
  C9_partial_pairs _ (3/2) "contain" (Or.inr rfl) (Or.inr rfl)

/-- C10: for a hybrid resolution whose effective fit string is not
"contain", "cover" or "fill" — misspellings and arbitrary strings
included — no error is raised and the behavior is that of fit mode
NONE: the viewport is the pixel fields and the device scale factor is
`scale_factor * (dpi / 96)`. -/
theorem C10_invalid_fit (r : Resolution) (sf : ℚ) (fitParam : String)
    (w h : ℤ) (hw : r.width = some w) (hh : r.height = some h)
    (hcm : is_cm_resolution r = true)
    (h1 : r.object_fit.getD fitParam ≠ ObjectFit.CONTAIN)
    (h2 : r.object_fit.getD fitParam ≠ ObjectFit.COVER)
    (_h3 : r.object_fit.getD fitParam ≠ ObjectFit.FILL) :
    resolveViewport (some r) sf fitParam =
      { width := w, height := h,
        device_scale := sf * (((r.dpi.getD 300 : ℤ) : ℚ) / 96) } := by
  simp [resolveViewport, hcm, has_pixel_dimensions, hw, hh, h1, h2]

/-- C10 witness: a hybrid A4 resolution with the misspelled fit string
"covr". -/
theorem C10_witness :
    resolveViewport
      (some { width := some 1920, height := some 1080, cm_width := some 21,
              cm_height := some (297/10), dpi := some 300,
              object_fit := some "covr" }) (3/2) "contain" =
      { width := 1920, height := 1080,
        device_scale := (3/2) * (((300 : ℤ) : ℚ) / 96) } :=
  C10_invalid_fit _ (3/2) "contain" 1920 1080 rfl rfl rfl
    (by decide) (by decide) (by decide)

/-- C1: for a hybrid resolution (both pixel and cm pairs present) the
viewport is always the screen pixel fields, and for each of the four
fit modes the device scale factor is `scale_factor * ratio * (dpi/96)`
with `ratio = min(width / cmToPixels(cm_width, dpi), height /
cmToPixels(cm_height, dpi))` for CONTAIN, the corresponding `max` for
COVER, and no ratio (`scale_factor * (dpi/96)`) for FILL and NONE;
`dpi` defaults to 300 when absent. -/
theorem C1_hybrid (r : Resolution) (sf : ℚ) (fitParam : String)
    (w h : ℤ) (cw ch : ℚ)
    (hw : r.width = some w) (hh : r.height = some h)
    (hcw : r.cm_width = some cw) (hch : r.cm_height = some ch)
    (hfit : r.object_fit.getD fitParam = ObjectFit.CONTAIN ∨
            r.object_fit.getD fitParam = ObjectFit.COVER ∨
            r.object_fit.getD fitParam = ObjectFit.FILL ∨
            r.object_fit.getD fitParam = ObjectFit.NONE) :
    resolveViewport (some r) sf fitParam =
      { width := w, height := h,
        device_scale :=
          if r.object_fit.getD fitParam = ObjectFit.CONTAIN then
            sf * min ((w : ℚ) / (cmToPixelsPure cw (r.dpi.getD 300) : ℚ))
                     ((h : ℚ) / (cmToPixelsPure ch (r.dpi.getD 300) : ℚ)) *
              (((r.dpi.getD 300 : ℤ) : ℚ) / 96)
          else if r.object_fit.getD fitParam = ObjectFit.COVER then
            sf * max ((w : ℚ) / (cmToPixelsPure cw (r.dpi.getD 300) : ℚ))
                     ((h : ℚ) / (cmToPixelsPure ch (r.dpi.getD 300) : ℚ)) *
              (((r.dpi.getD 300 : ℤ) : ℚ) / 96)
          else sf * (((r.dpi.getD 300 : ℤ) : ℚ) / 96) } := by
  rcases hfit with hf | hf | hf | hf <;>
    simp [resolveViewport, is_cm_resolution, has_pixel_dimensions,
      hw, hh, hcw, hch, hf, ObjectFit.CONTAIN, ObjectFit.COVER,
      ObjectFit.FILL, ObjectFit.NONE]

/-- C1 witness: a hybrid A4 resolution at 300 dpi whose spec carries
`object_fit = "contain"`, overriding the parameter value "none". -/
theorem C1_witness :
    resolveViewport
      (some { width := some 1920, height := some 1080, cm_width := some 21,
              cm_height := some (297/10), dpi := some 300,
              object_fit := some "contain" }) (3/2) "none" =
      { width := 1920, height := 1080,
        device_scale :=
          if ("contain" : String) = ObjectFit.CONTAIN then
            (3/2) * min ((1920 : ℚ) / (cmToPixelsPure 21 300 : ℚ))
                        ((1080 : ℚ) / (cmToPixelsPure (297/10) 300 : ℚ)) *
              (((300 : ℤ) : ℚ) / 96)
          else if ("contain" : String) = ObjectFit.COVER then
            (3/2) * max ((1920 : ℚ) / (cmToPixelsPure 21 300 : ℚ))
                        ((1080 : ℚ) / (cmToPixelsPure (297/10) 300 : ℚ)) *
              (((300 : ℤ) : ℚ) / 96)
          else (3/2) * (((300 : ℤ) : ℚ) / 96) } :=
  C1_hybrid _ (3/2) "none" 1920 1080 21 (297/10) rfl rfl rfl rfl (Or.inl rfl)

end Claims
